import Mathlib

/-!
Verification of the mapping execution engine of the feishu_contracts
repository (src/feishu_contracts/transform/transformer.py).

The Python module is shallowly embedded: Python runtime values are the
inductive type Value; Python floats are modelled as exact decimal numbers
(an integer mantissa times a power of ten), which agrees with CPython on
every value the engine constructs from decimal text; pandas DataFrames
are lists of rows of string cells; the openpyxl worksheet is a header row
plus a max-row counter, and cell mutation is made explicit as a list of
(row, column, value) writes.  Fallible functions (KeyError paths) return
Option.  All definitions are structurally recursive so concrete inputs
evaluate inside the kernel.
-/

/-- Python runtime values as they flow through the transformer: None,
str, int, float, bool, pandas Timestamp (epoch nanoseconds), list, dict
(string-keyed, insertion ordered).  NaN/inf floats never arise in the
embedding (the modelled float text parser only accepts finite decimal
literals), so they have no constructor. -/
inductive Value where
  | none
  | str (s : String)
  | int (n : Int)
  | float (mant : Int) (exp : Int)
  | bool (b : Bool)
  | timestamp (ns : Int)
  | list (vs : List Value)
  | dict (kvs : List (String × Value))

/-- Exact value denoted by a modelled float: mant * 10 ^ exp. -/
def floatVal (mant exp : Int) : ℚ := (mant : ℚ) * (10 : ℚ) ^ exp

/- Boolean equality on values, modelling Python == as used by
dict/set membership in the transformer.  Structural, hence it diverges
from CPython only on cross-type numeric comparisons (1 == 1.0 == True)
and on non-normalized float representations, none of which the engine
produces when comparing:  floats are compared only against values built
by the same parser with the same normalization. -/
mutual
def Value.beq : Value → Value → Bool
  | .none, .none => true
  | .str a, .str b => a == b
  | .int a, .int b => a == b
  | .float m1 e1, .float m2 e2 => m1 == m2 && e1 == e2
  | .bool a, .bool b => a == b
  | .timestamp a, .timestamp b => a == b
  | .list a, .list b => Value.beqList a b
  | .dict a, .dict b => Value.beqDict a b
  | _, _ => false

def Value.beqList : List Value → List Value → Bool
  | [], [] => true
  | a :: as, b :: bs => Value.beq a b && Value.beqList as bs
  | _, _ => false

def Value.beqDict : List (String × Value) → List (String × Value) → Bool
  | [], [] => true
  | (k, v) :: as, (k2, v2) :: bs => k == k2 && Value.beq v v2 && Value.beqDict as bs
  | _, _ => false
end

/-- Python truthiness of a value (used by `if unique:` etc.). -/
def pyTruthy : Value → Bool
  | .none => false
  | .str s => s ≠ ""
  | .int n => n ≠ 0
  | .float m _ => m ≠ 0
  | .bool b => b
  | .timestamp _ => true
  | .list vs => !vs.isEmpty
  | .dict kvs => !kvs.isEmpty

/-- Python `v in (None, "")`, the emptiness test used by the dict and
to_value_label steps. -/
def isNoneOrEmptyStr : Value → Bool
  | .none => true
  | .str s => s == ""
  | _ => false

-- ---------------------------------------------------------------
-- string helpers (char-list based so they evaluate in the kernel)
-- ---------------------------------------------------------------

/-- Whitespace for Python str.strip (ASCII subset; CPython also strips
other Unicode whitespace, which the source data never contains). -/
def isPyWs (c : Char) : Bool :=
  c == ' ' || c == '\t' || c == '\n' || c == '\r' || c == '\x0b' || c == '\x0c'

/-- Python str.strip(). -/
def pyStrip (s : String) : String :=
  String.mk (((s.data.dropWhile isPyWs).reverse.dropWhile isPyWs).reverse)

def replaceFuel (pat repl : List Char) : Nat → List Char → List Char
  | 0, cs => cs
  | _, [] => []
  | fuel + 1, c :: cs =>
    if pat ≠ [] ∧ pat.isPrefixOf (c :: cs) then
      repl ++ replaceFuel pat repl fuel (List.drop (pat.length - 1) cs)
    else
      c :: replaceFuel pat repl fuel cs

/-- Python str.replace(pat, repl): replaces every non-overlapping
occurrence left to right.  An empty pattern leaves the string unchanged
(CPython instead inserts repl everywhere; the transformer only calls
replace with non-empty patterns on the paths the claims touch). -/
def pyReplace (s pat repl : String) : String :=
  String.mk (replaceFuel pat.data repl.data s.data.length s.data)

/-- Removes the first occurrence of ch, modelling str.replace(ch, "", 1). -/
def removeFirst (ch : Char) : List Char → List Char
  | [] => []
  | c :: cs => if c == ch then cs else c :: removeFirst ch cs

def joinSep (sep : String) : List String → String
  | [] => ""
  | [s] => s
  | s :: rest => s ++ sep ++ joinSep sep rest

def digitsVal (cs : List Char) : Nat :=
  cs.foldl (fun acc c => acc * 10 + (c.toNat - 48)) 0

/-- Python int(s) on an already-stripped string: optional sign then at
least one ASCII digit (CPython additionally accepts underscores between
digits and non-ASCII decimal digits; neither occurs in the data the
engine feeds to int()). -/
def pyIntParse (s : String) : Option Int :=
  let (sign, rest) :=
    match s.data with
    | '+' :: r => ((1 : Int), r)
    | '-' :: r => ((-1 : Int), r)
    | r => ((1 : Int), r)
  if rest ≠ [] ∧ rest.all Char.isDigit then some (sign * (digitsVal rest : Int))
  else Option.none

/-- Python float(s) on an already-stripped string, for finite decimal
literals: optional sign, digits with an optional fractional part, and an
optional exponent.  The result is the exact decimal (mantissa, exponent
of ten).  CPython additionally accepts "inf"/"nan" spellings and
underscores between digits, and rounds the decimal to the nearest
binary double; the engine only ever parses ordinary decimal text whose
value the claims compare exactly. -/
def pyFloatParse (s : String) : Option (Int × Int) :=
  let (sign, cs) :=
    match s.data with
    | '+' :: r => ((1 : Int), r)
    | '-' :: r => ((-1 : Int), r)
    | r => ((1 : Int), r)
  let d1 := cs.takeWhile Char.isDigit
  let cs := cs.dropWhile Char.isDigit
  let (d2, cs) :=
    match cs with
    | '.' :: r => (r.takeWhile Char.isDigit, r.dropWhile Char.isDigit)
    | r => ([], r)
  if d1 ++ d2 = [] then Option.none
  else
    let (expPart, cs) :=
      match cs with
      | 'e' :: r | 'E' :: r =>
        let (esign, r2) :=
          match r with
          | '+' :: r2 => ((1 : Int), r2)
          | '-' :: r2 => ((-1 : Int), r2)
          | r2 => ((1 : Int), r2)
        let ed := r2.takeWhile Char.isDigit
        if ed = [] then (Option.none, ['e'])  -- malformed exponent: poison the remainder
        else (some (esign * (digitsVal ed : Int)), r2.dropWhile Char.isDigit)
      | r => (some 0, r)
    match expPart with
    | Option.none => Option.none
    | some e =>
      if cs = [] then some (sign * (digitsVal (d1 ++ d2) : Int), e - (d2.length : Int))
      else Option.none

-- ---------------------------------------------------------------
-- decimal (modelled float) rendering
-- ---------------------------------------------------------------

/-- Strips factors of ten from the mantissa while the exponent is
negative, so 12340 * 10^-2 renders as "123.4". -/
def decNorm : Nat → Int → Int → Int × Int
  | 0, m, e => (m, e)
  | fuel + 1, m, e =>
    if e < 0 ∧ m % 10 = 0 then decNorm fuel (m / 10) (e + 1) else (m, e)

/-- Python str() of a (modelled, finite) float.  Renders plain decimal
notation; CPython switches to scientific notation for very large or
very small magnitudes, which the engine's data never reaches. -/
def floatRepr (mant exp : Int) : String :=
  let (m, e) := if 0 < exp then (mant * (10 : Int) ^ exp.toNat, (0 : Int)) else (mant, exp)
  let (m, e) := decNorm e.natAbs m e
  let k := e.natAbs
  let sign := if m < 0 then "-" else ""
  let digs := (toString m.natAbs).data
  if k = 0 then sign ++ String.mk digs ++ ".0"
  else
    let digs := if digs.length ≤ k then List.replicate (k + 1 - digs.length) '0' ++ digs else digs
    sign ++ String.mk (digs.take (digs.length - k)) ++ "." ++ String.mk (digs.drop (digs.length - k))

-- ---------------------------------------------------------------
-- civil date arithmetic (for the pandas Timestamp model)
-- ---------------------------------------------------------------

/-- Days since 1970-01-01 of a civil date (Howard Hinnant's algorithm,
as used by every epoch conversion library). -/
def daysFromCivil (y0 : Int) (m d : Nat) : Int :=
  let y := if m ≤ 2 then y0 - 1 else y0
  let era := (if 0 ≤ y then y else y - 399) / 400
  let yoe := (y - era * 400).toNat
  let mp := (m + 9) % 12
  let doy := (153 * mp + 2) / 5 + d - 1
  let doe := yoe * 365 + yoe / 4 - yoe / 100 + doy
  era * 146097 + (doe : Int) - 719468

/-- Civil date (year, month, day) of a days-since-epoch count. -/
def civilFromDays (z0 : Int) : Int × Nat × Nat :=
  let z := z0 + 719468
  let era := (if 0 ≤ z then z else z - 146096) / 146097
  let doe := (z - era * 146097).toNat
  let yoe := (doe - doe / 1460 + doe / 36524 - doe / 146096) / 365
  let doy := doe - (365 * yoe + yoe / 4 - yoe / 100)
  let mp := (5 * doy + 2) / 153
  let d := doy - (153 * mp + 2) / 5 + 1
  let m := if mp < 10 then mp + 3 else mp - 9
  ((yoe : Int) + era * 400 + (if m ≤ 2 then 1 else 0), m, d)

def nsPerDay : Int := 86400 * 1000000000

def padNat (width : Nat) (n : Nat) : String :=
  let digs := (toString n).data
  String.mk (List.replicate (width - digs.length) '0' ++ digs)

/-- strftime over the tokens %Y %m %d %H %M %S (the only tokens
_java_dt_to_py can produce); other characters are copied verbatim. -/
def strftimeFuel (ns : Int) : Nat → List Char → String
  | 0, _ => ""
  | _, [] => ""
  | fuel + 1, c :: cs =>
    let days := ns.fdiv nsPerDay
    let secOfDay := ((ns.fmod nsPerDay) / 1000000000).toNat
    let (y, mo, dy) := civilFromDays days
    match c, cs with
    | '%', 'Y' :: rest => padNat 4 y.toNat ++ strftimeFuel ns fuel rest
    | '%', 'm' :: rest => padNat 2 mo ++ strftimeFuel ns fuel rest
    | '%', 'd' :: rest => padNat 2 dy ++ strftimeFuel ns fuel rest
    | '%', 'H' :: rest => padNat 2 (secOfDay / 3600) ++ strftimeFuel ns fuel rest
    | '%', 'M' :: rest => padNat 2 (secOfDay / 60 % 60) ++ strftimeFuel ns fuel rest
    | '%', 'S' :: rest => padNat 2 (secOfDay % 60) ++ strftimeFuel ns fuel rest
    | c, rest => String.mk [c] ++ strftimeFuel ns fuel rest

def strftime (ns : Int) (fmt : String) : String :=
  strftimeFuel ns (fmt.data.length + 1) fmt.data

/-- str() of a pandas Timestamp: "YYYY-MM-DD HH:MM:SS" (sub-second parts,
which pandas appends when present, are not rendered by the model; no
claim inspects a timestamp's text). -/
def tsRepr (ns : Int) : String := strftime ns "%Y-%m-%d %H:%M:%S"

-- ---------------------------------------------------------------
-- Python str()/repr() of values
-- ---------------------------------------------------------------

mutual
/-- Python repr(v).  Containers render their elements with repr, as in
CPython.  (String escaping of embedded quotes is not modelled — no
engine data contains them.) -/
def pyRepr : Value → String
  | .none => "None"
  | .str s => "'" ++ s ++ "'"
  | .int n => toString n
  | .float m e => floatRepr m e
  | .bool b => if b then "True" else "False"
  | .timestamp ns => "Timestamp('" ++ tsRepr ns ++ "')"
  | .list vs => "[" ++ joinSep ", " (pyReprList vs) ++ "]"
  | .dict kvs => "\x7b" ++ joinSep ", " (pyReprDict kvs) ++ "\x7d"

def pyReprList : List Value → List String
  | [] => []
  | v :: vs => pyRepr v :: pyReprList vs

def pyReprDict : List (String × Value) → List String
  | [] => []
  | (k, v) :: kvs => ("'" ++ k ++ "': " ++ pyRepr v) :: pyReprDict kvs
end

/-- Python str(v): identical to repr except on strings (unquoted) and
timestamps (no Timestamp(...) wrapper). -/
def pyStr : Value → String
  | .str s => s
  | .timestamp ns => tsRepr ns
  | v => pyRepr v

/-- transformer._to_str: None (and float NaN, which the embedding cannot
construct) become "", every other value its str() rendering. -/
def _to_str : Value → String
  | .none => ""
  | v => pyStr v

def firstSome {α : Type} : List (Option α) → Option α
  | [] => Option.none
  | some a :: _ => some a
  | Option.none :: rest => firstSome rest

-- ---------------------------------------------------------------
-- json.dumps / json.loads model
-- ---------------------------------------------------------------

def obraceC : Char := Char.ofNat 123
def cbraceC : Char := Char.ofNat 125

/-- JSON string escaping (ensure_ascii=False); control characters other
than the C escapes are not re-encoded by the model. -/
def jsonEscapeChars : List Char → String
  | [] => ""
  | c :: cs =>
    (if c == '"' then "\\\""
     else if c == '\\' then "\\\\"
     else if c == '\n' then "\\n"
     else if c == '\t' then "\\t"
     else if c == '\r' then "\\r"
     else String.mk [c]) ++ jsonEscapeChars cs

/-- Stable insertion of a field into a key-sorted field list (Python
sorted(..) is stable; equal keys cannot occur inside one dict). -/
def insertByKey (p : String × Value) : List (String × Value) → List (String × Value)
  | [] => [p]
  | q :: rest => if p.1 < q.1 then p :: q :: rest else q :: insertByKey p rest

def sortFields : List (String × Value) → List (String × Value)
  | [] => []
  | p :: rest => insertByKey p (sortFields rest)

mutual
/-- json.dumps(v, ensure_ascii=False), default separators, insertion
key order.  Timestamps are not JSON serializable (json.dumps raises
TypeError), hence the Option. -/
def jsonDumps : Value → Option String
  | .none => some "null"
  | .str s => some ("\"" ++ jsonEscapeChars s.data ++ "\"")
  | .int n => some (toString n)
  | .float m e => some (floatRepr m e)
  | .bool b => some (if b then "true" else "false")
  | .timestamp _ => Option.none
  | .list vs => (jsonDumpsList vs).map (fun ss => "[" ++ joinSep ", " ss ++ "]")
  | .dict kvs => (jsonDumpsDict kvs).map (fun ss => "\x7b" ++ joinSep ", " ss ++ "\x7d")

def jsonDumpsList : List Value → Option (List String)
  | [] => some []
  | v :: vs =>
    match jsonDumps v, jsonDumpsList vs with
    | some s, some ss => some (s :: ss)
    | _, _ => Option.none

def jsonDumpsDict : List (String × Value) → Option (List String)
  | [] => some []
  | (k, v) :: kvs =>
    match jsonDumps v, jsonDumpsDict kvs with
    | some s, some ss => some (("\"" ++ jsonEscapeChars k.data ++ "\": " ++ s) :: ss)
    | _, _ => Option.none
end

mutual
/-- Recursively sorts every dict's fields by key; serializing the result
with jsonDumps equals Python json.dumps(..., sort_keys=True). -/
def canonSort : Value → Value
  | .list vs => .list (canonSortList vs)
  | .dict kvs => .dict (sortFields (canonSortDict kvs))
  | v => v

def canonSortList : List Value → List Value
  | [] => []
  | v :: vs => canonSort v :: canonSortList vs

def canonSortDict : List (String × Value) → List (String × Value)
  | [] => []
  | (k, v) :: kvs => (k, canonSort v) :: canonSortDict kvs
end

/-- json.dumps(v, ensure_ascii=False, sort_keys=True). -/
def jsonDumpsSorted (v : Value) : Option String := jsonDumps (canonSort v)

def skipWs (cs : List Char) : List Char :=
  cs.dropWhile (fun c => c == ' ' || c == '\t' || c == '\n' || c == '\r')

/-- JSON string body after the opening quote; \\uXXXX escapes are not
modelled (they make the parse fail, so the step falls back to the raw
string). -/
def jsonStrChars : List Char → Option (String × List Char)
  | [] => Option.none
  | '"' :: rest => some ("", rest)
  | '\\' :: e :: rest =>
    (if e == '"' then some "\""
     else if e == '\\' then some "\\"
     else if e == '/' then some "/"
     else if e == 'n' then some "\n"
     else if e == 't' then some "\t"
     else if e == 'r' then some "\r"
     else if e == 'b' then some "\x08"
     else if e == 'f' then some "\x0c"
     else Option.none).bind
      (fun c => (jsonStrChars rest).map (fun sr => (c ++ sr.1, sr.2)))
  | c :: rest => (jsonStrChars rest).map (fun sr => (String.mk [c] ++ sr.1, sr.2))

/-- JSON number: sign, digits, optional fraction and exponent; a
fraction or exponent makes it a float, otherwise an int (json.loads
leading-zero strictness is not modelled). -/
def jsonNum (cs : List Char) : Option (Value × List Char) :=
  let (sign, cs1) :=
    match cs with
    | '-' :: r => ((-1 : Int), r)
    | r => ((1 : Int), r)
  let d1 := cs1.takeWhile Char.isDigit
  let cs2 := cs1.dropWhile Char.isDigit
  if d1 = [] then Option.none
  else
    match cs2 with
    | '.' :: r =>
      let d2 := r.takeWhile Char.isDigit
      let cs3 := r.dropWhile Char.isDigit
      if d2 = [] then Option.none
      else
        match cs3 with
        | 'e' :: r2 | 'E' :: r2 =>
          let (es, r3) :=
            match r2 with
            | '+' :: r3 => ((1 : Int), r3)
            | '-' :: r3 => ((-1 : Int), r3)
            | r3 => ((1 : Int), r3)
          let ed := r3.takeWhile Char.isDigit
          if ed = [] then Option.none
          else some (.float (sign * (digitsVal (d1 ++ d2) : Int))
                       (es * (digitsVal ed : Int) - (d2.length : Int)),
                     r3.dropWhile Char.isDigit)
        | _ => some (.float (sign * (digitsVal (d1 ++ d2) : Int)) (-(d2.length : Int)), cs3)
    | 'e' :: r2 | 'E' :: r2 =>
      let (es, r3) :=
        match r2 with
        | '+' :: r3 => ((1 : Int), r3)
        | '-' :: r3 => ((-1 : Int), r3)
        | r3 => ((1 : Int), r3)
      let ed := r3.takeWhile Char.isDigit
      if ed = [] then Option.none
      else some (.float (sign * (digitsVal d1 : Int)) (es * (digitsVal ed : Int)),
                 r3.dropWhile Char.isDigit)
    | _ => some (.int (sign * (digitsVal d1 : Int)), cs2)

mutual
def jsonVal : Nat → List Char → Option (Value × List Char)
  | 0, _ => Option.none
  | fuel + 1, cs =>
    match skipWs cs with
    | 'n' :: 'u' :: 'l' :: 'l' :: rest => some (.none, rest)
    | 't' :: 'r' :: 'u' :: 'e' :: rest => some (.bool true, rest)
    | 'f' :: 'a' :: 'l' :: 's' :: 'e' :: rest => some (.bool false, rest)
    | '"' :: rest => (jsonStrChars rest).map (fun sr => (.str sr.1, sr.2))
    | '[' :: rest =>
      (match skipWs rest with
       | ']' :: r2 => some (.list [], r2)
       | r2 => (jsonArrItems fuel r2).map (fun vr => (.list vr.1, vr.2)))
    | c :: rest =>
      if c == obraceC then
        match skipWs rest with
        | r2 =>
          if r2 ≠ [] ∧ r2.head? = some cbraceC then some (.dict [], r2.tail)
          else (jsonObjItems fuel r2).map (fun vr => (.dict vr.1, vr.2))
      else jsonNum (c :: rest)
    | [] => Option.none

def jsonArrItems : Nat → List Char → Option (List Value × List Char)
  | 0, _ => Option.none
  | fuel + 1, cs =>
    (jsonVal fuel cs).bind (fun vr =>
      match skipWs vr.2 with
      | ',' :: r2 => (jsonArrItems fuel r2).map (fun wr => (vr.1 :: wr.1, wr.2))
      | ']' :: r2 => some ([vr.1], r2)
      | _ => Option.none)

def jsonObjItems : Nat → List Char → Option (List (String × Value) × List Char)
  | 0, _ => Option.none
  | fuel + 1, cs =>
    match skipWs cs with
    | '"' :: rest =>
      (jsonStrChars rest).bind (fun kr =>
        match skipWs kr.2 with
        | ':' :: r2 =>
          (jsonVal fuel r2).bind (fun vr =>
            match skipWs vr.2 with
            | ',' :: r3 => (jsonObjItems fuel r3).map (fun wr => ((kr.1, vr.1) :: wr.1, wr.2))
            | c :: r3 =>
              if c == cbraceC then some ([(kr.1, vr.1)], r3) else Option.none
            | [] => Option.none)
        | _ => Option.none)
    | _ => Option.none
end

/-- json.loads: a full parse of the whole string. -/
def jsonLoads (s : String) : Option Value :=
  (jsonVal (s.data.length + 1) s.data).bind
    (fun vr => if skipWs vr.2 = [] then some vr.1 else Option.none)

-- ---------------------------------------------------------------
-- date parsing model
-- ---------------------------------------------------------------

def isLeap (y : Int) : Bool :=
  y % 4 == 0 && (y % 100 != 0 || y % 400 == 0)

def daysInMonth (y : Int) (m : Nat) : Nat :=
  if m = 2 then (if isLeap y then 29 else 28)
  else if m = 4 ∨ m = 6 ∨ m = 9 ∨ m = 11 then 30
  else 31

/-- Fields collected by the strptime model (strptime defaults:
1900-01-01 00:00:00). -/
structure DTParts where
  year : Int
  month : Nat
  day : Nat
  hour : Nat
  minute : Nat
  second : Nat

def takeDigits (n : Nat) (cs : List Char) : Option (Nat × List Char) :=
  let ds := cs.take n
  if ds.length = n ∧ ds.all Char.isDigit then some (digitsVal ds, cs.drop n)
  else Option.none

def strptimeCore : Nat → List Char → List Char → DTParts → Option DTParts
  | 0, _, _, _ => Option.none
  | fuel + 1, fcs, cs, acc =>
    match fcs with
    | [] => if cs = [] then some acc else Option.none
    | '%' :: 'Y' :: rest =>
      (takeDigits 4 cs).bind (fun vr =>
        strptimeCore fuel rest vr.2 (DTParts.mk vr.1 acc.month acc.day acc.hour acc.minute acc.second))
    | '%' :: 'm' :: rest =>
      (takeDigits 2 cs).bind (fun vr =>
        strptimeCore fuel rest vr.2 (DTParts.mk acc.year vr.1 acc.day acc.hour acc.minute acc.second))
    | '%' :: 'd' :: rest =>
      (takeDigits 2 cs).bind (fun vr =>
        strptimeCore fuel rest vr.2 (DTParts.mk acc.year acc.month vr.1 acc.hour acc.minute acc.second))
    | '%' :: 'H' :: rest =>
      (takeDigits 2 cs).bind (fun vr =>
        strptimeCore fuel rest vr.2 (DTParts.mk acc.year acc.month acc.day vr.1 acc.minute acc.second))
    | '%' :: 'M' :: rest =>
      (takeDigits 2 cs).bind (fun vr =>
        strptimeCore fuel rest vr.2 (DTParts.mk acc.year acc.month acc.day acc.hour vr.1 acc.second))
    | '%' :: 'S' :: rest =>
      (takeDigits 2 cs).bind (fun vr =>
        strptimeCore fuel rest vr.2 (DTParts.mk acc.year acc.month acc.day acc.hour acc.minute vr.1))
    | c :: rest =>
      match cs with
      | c2 :: cs2 => if c == c2 then strptimeCore fuel rest cs2 acc else Option.none
      | [] => Option.none

/-- pd.to_datetime(s, format=fmt) for the numeric tokens _java_dt_to_py
can produce: fixed-width fields (4-digit year, 2-digit others), literal
characters matched exactly, full consumption, and calendar validation.
CPython/pandas also accept narrower digit fields and many more tokens;
the mapping files in this repository use full-width fields only. -/
def strptimeModel (s fmt : String) : Option Int :=
  (strptimeCore (fmt.data.length + 1) fmt.data s.data (DTParts.mk 1900 1 1 0 0 0)).bind
    (fun p =>
      if 1 ≤ p.month ∧ p.month ≤ 12 ∧ 1 ≤ p.day ∧ p.day ≤ daysInMonth p.year p.month ∧
         p.hour < 24 ∧ p.minute < 60 ∧ p.second < 60 then
        some ((daysFromCivil p.year p.month p.day * 86400 +
               (p.hour * 3600 + p.minute * 60 + p.second : Nat)) * 1000000000)
      else Option.none)

/-- Free-form pd.to_datetime(s): modelled as the ISO forms the pipeline
emits (date, or date plus time).  pandas accepts many further layouts;
none is exercised by the claims. -/
def pdToDatetimeFree (s : String) : Option Int :=
  match strptimeModel s "%Y-%m-%d %H:%M:%S" with
  | some ns => some ns
  | Option.none => strptimeModel s "%Y-%m-%d"

/-- transformer._java_dt_to_py: literal token replacement in dict order
yyyy, MM, dd, HH, mm, ss. -/
def _java_dt_to_py (pattern : String) : String :=
  pyReplace (pyReplace (pyReplace (pyReplace (pyReplace (pyReplace
    pattern "yyyy" "%Y") "MM" "%m") "dd" "%d") "HH" "%H") "mm" "%M") "ss" "%S"

/-- floor(m * 10^e * mult), for the epoch branch on fractional input
(pandas' exact sub-nanosecond rounding is not claim-relevant). -/
def decFloorMul (m e mult : Int) : Int :=
  if 0 ≤ e then m * (10 : Int) ^ e.toNat * mult
  else (m * mult).fdiv ((10 : Int) ^ (-e).toNat)

/-- transformer._try_parse_date on string input (the callers pass
_to_str(v)): epoch-like digit strings (10+ digit integer part, unit by
digit count), then the declared formats, then free-form parsing. -/
def _try_parse_date (txt : String) (fmts : List String) : Option Int :=
  let s := pyStrip txt
  if s = "" then Option.none
  else
    let numeric := s.data.dropWhile (fun c => c == '+' || c == '-')
    let numeric_core := numeric.takeWhile (fun c => c != '.')
    let epoch : Option Int :=
      if numeric ≠ [] ∧ removeFirst '.' numeric ≠ [] ∧
         (removeFirst '.' numeric).all Char.isDigit ∧ 10 ≤ numeric_core.length then
        let digits := numeric_core.length
        let multNs : Int :=
          if 19 ≤ digits then 1
          else if 16 ≤ digits then 1000
          else if 13 ≤ digits then 1000000
          else 1000000000
        if numeric.contains '.' then
          (pyFloatParse s).map (fun me => decFloorMul me.1 me.2 multNs)
        else
          (pyIntParse s).map (fun v => v * multNs)
      else Option.none
    match epoch with
    | some ns => some ns
    | Option.none =>
      match firstSome (fmts.map (fun f => strptimeModel s (_java_dt_to_py f))) with
      | some ns => some ns
      | Option.none => pdToDatetimeFree s

-- ---------------------------------------------------------------
-- transformer._number_parse and the dict-lookup core
-- ---------------------------------------------------------------

/-- transformer._number_parse: None yields None; int/float (bool
excluded) convert directly; anything else is rendered to text,
stripped, the thousands separator removed, the decimal separator
normalized to ".", and parsed as a float; parse failure yields None. -/
def _number_parse (txt : Value) (thousands decimal : String) : Option (Int × Int) :=
  match txt with
  | .none => Option.none
  | .int n => some (n, 0)
  | .float m e => some (m, e)
  | txt =>
    let s := pyStrip (pyStr txt)
    if s = "" then Option.none
    else
      let s := if thousands ≠ "" then pyReplace s thousands "" else s
      let s := if decimal ≠ "." then pyReplace s decimal "." else s
      pyFloatParse s

/-- A Python dict used as a lookup table: an association list with the
first binding for a key the one dict lookup returns (keys are unique in
a Python dict, so at most one binding exists). -/
abbrev LookupTable := List (Value × Value)

def tableFind (table : LookupTable) (k : Value) : Option Value :=
  (table.find? (fun kv => Value.beq kv.1 k)).map (fun kv => kv.2)

def pushCand (acc : List Value) (c : Value) : List Value :=
  if acc.any (fun x => Value.beq x c) then acc else acc ++ [c]

/-- The candidate key sequence _dict_lookup_value probes, in order:
the raw key; for a string key its stripped form (when different) and
its int-parsed form (when parseable); for a non-string key its str()
rendering. -/
def candidateKeys (key : Value) : List Value :=
  match key with
  | .str s =>
    let acc1 :=
      if pyStrip s ≠ s then pushCand (pushCand [] (Value.str s)) (.str (pyStrip s))
      else pushCand [] (Value.str s)
    if pyStrip s ≠ "" then
      match pyIntParse (pyStrip s) with
      | some n => pushCand acc1 (.int n)
      | Option.none => acc1
    else acc1
  | key => pushCand (pushCand [] key) (.str (pyStr key))

/-- transformer._dict_lookup_value: an empty table misses outright;
otherwise the first candidate key present in the table wins. -/
def _dict_lookup_value (table : LookupTable) (key : Value) : Option Value :=
  if table.isEmpty then Option.none
  else firstSome ((candidateKeys key).map (fun c => tableFind table c))

/-- The process-wide LOOKUP_TABLES global, made an explicit parameter. -/
abbrev LookupTables := List (String × LookupTable)

def lookupLT (lt : LookupTables) (name : String) : Option LookupTable :=
  (lt.find? (fun kv => kv.1 == name)).map (fun kv => kv.2)

-- ---------------------------------------------------------------
-- the transform step library
-- ---------------------------------------------------------------

def dictGet (kvs : List (String × Value)) (k : String) : Option Value :=
  (kvs.find? (fun kv => kv.1 == k)).map (fun kv => kv.2)

/-- params.get(k, default) for a dict params object.  (On a non-dict
params CPython would raise AttributeError; the default keeps the model
total — the claims only exercise dict or absent params.) -/
def paramGet (params : Value) (k : String) (dflt : Value) : Value :=
  match params with
  | .dict kvs => (dictGet kvs k).getD dflt
  | _ => dflt

/-- Python dict assignment d[k] = v: replaces in place or appends. -/
def dictSetV (kvs : List (String × Value)) (k : String) (v : Value) : List (String × Value) :=
  if kvs.any (fun kv => kv.1 == k) then
    kvs.map (fun kv => if kv.1 == k then (k, v) else kv)
  else kvs ++ [(k, v)]

/-- transformer.tf_trim: None stays None, every other value is rendered
with _to_str and stripped. -/
def tf_trim (values : List Value) (_params : Value) : List Value :=
  values.map (fun v =>
    match v with
    | .none => .none
    | v => .str (pyStrip (_to_str v)))

/-- transformer.tf_json_parse. -/
def tf_json_parse (values : List Value) (_params : Value) : List Value :=
  values.map (fun v =>
    match v with
    | .str s0 =>
      let s := pyStrip s0
      if s = "" then .str ""
      else
        match jsonLoads s with
        | some x => x
        | Option.none => .str s
    | v => v)

/-- The set-membership key used for deduplication in tf_form_pick and
tf_to_value_label: dicts dedupe by their sort_keys JSON dump, other
values by themselves.  (A value json.dumps cannot serialize would raise
in CPython; the model keys it by itself.) -/
def dedupKey (x : Value) : Value :=
  match x with
  | .dict _ =>
    (match jsonDumpsSorted x with
     | some s => .str s
     | Option.none => x)
  | _ => x

def dedupValues (seen : List Value) : List Value → List Value
  | [] => []
  | x :: xs =>
    if seen.any (fun k => Value.beq k (dedupKey x)) then dedupValues seen xs
    else x :: dedupValues (dedupKey x :: seen) xs

/-- Keys denoted by a field_pairs parameter (a list of field names;
non-string entries are dropped by the model — with them CPython would
build non-string dict keys, which no mapping file declares). -/
def fieldPairsKeys : Value → List String
  | .list vs => vs.filterMap (fun x => match x with | .str k => some k | _ => Option.none)
  | _ => []

/-- transformer.tf_form_pick. -/
def tf_form_pick (values : List Value) (params : Value) : List Value :=
  let field := paramGet params "field" .none
  let field_pairs := paramGet params "field_pairs" .none
  let unique := pyTruthy (paramGet params "unique" (.bool true))
  let res := values.flatMap (fun v =>
    let seq := match v with | .list l => l | v => [v]
    seq.map (fun item =>
      match item with
      | .dict kvs =>
        if pyTruthy field_pairs then
          .dict ((fieldPairsKeys field_pairs).map (fun k => (k, (dictGet kvs k).getD .none)))
        else if pyTruthy field then
          (match field with
           | .str f => (dictGet kvs f).getD .none
           | _ => .none)
        else .dict kvs
      | item => item))
  if unique then dedupValues [] res else res

/-- transformer's "form_picker_names" lambda:
tf_form_pick(v, dict("field" -> "name") updated with p). -/
def tf_form_picker_names (values : List Value) (params : Value) : List Value :=
  let merged : Value :=
    match params with
    | .dict kvs => .dict (kvs.foldl (fun acc kv => dictSetV acc kv.1 kv.2) [("field", Value.str "name")])
    | _ => .dict [("field", Value.str "name")]
  tf_form_pick values merged

def strLookup (fields : List (String × String)) (k : String) : Option String :=
  (fields.find? (fun kv => kv.1 == k)).map (fun kv => kv.2)

def formatFuel (fields : List (String × String)) : Nat → List Char → Option String
  | 0, _ => Option.none
  | _, [] => some ""
  | fuel + 1, c :: cs =>
    if c == obraceC then
      let name := String.mk (cs.takeWhile (fun ch => ch != cbraceC))
      match cs.dropWhile (fun ch => ch != cbraceC) with
      | [] => Option.none
      | _ :: rest =>
        (strLookup fields name).bind (fun v =>
          (formatFuel fields fuel rest).map (fun tail => v ++ tail))
    else if c == cbraceC then Option.none
    else (formatFuel fields fuel cs).map (fun tail => String.mk [c] ++ tail)

/-- str.format with named placeholders.  Replacement of known names;
an unknown name, a stray close brace or an unterminated field is an
error (fallback branch).  Brace escaping and format specs are not
modelled (a spec'd name is simply unknown, hence also the fallback). -/
def formatTemplate (tpl : String) (fields : List (String × String)) : Option String :=
  formatFuel fields (tpl.data.length + 1) tpl.data

/-- transformer.tf_format_each. -/
def tf_format_each (values : List Value) (params : Value) : List Value :=
  let tpl :=
    match paramGet params "template" (.str "\x7bx\x7d") with
    | .str s => s
    | _ => "\x7bx\x7d"
  values.map (fun v =>
    match v with
    | .dict kvs =>
      (match formatTemplate tpl (kvs.map (fun kv => (kv.1, _to_str kv.2))) with
       | some s => .str s
       | Option.none => .str (pyStr (.dict kvs)))
    | v =>
      (match formatTemplate tpl [("x", _to_str v)] with
       | some s => .str s
       | Option.none => .str (_to_str v)))

def dedupStrs (seen : List String) : List String → List String
  | [] => []
  | s :: ss => if seen.contains s then dedupStrs seen ss else s :: dedupStrs (s :: seen) ss

/-- transformer.tf_join_agg: flatten one level of lists into strings,
optionally dedupe preserving first occurrence, join the non-empty
strings — always a one-element result. -/
def tf_join_agg (values : List Value) (params : Value) : List Value :=
  let sep :=
    match paramGet params "sep" (.str ", ") with
    | .str s => s
    | v => pyStr v
  let unique := pyTruthy (paramGet params "unique" (.bool true))
  let flat := values.flatMap (fun v =>
    match v with
    | .list l => l.map _to_str
    | v => [_to_str v])
  let flat := if unique then dedupStrs [] flat else flat
  [.str (if flat ≠ [] then joinSep sep (flat.filter (fun s => s ≠ "")) else "")]

/-- transformer.tf_number_parse. -/
def tf_number_parse (values : List Value) (params : Value) : List Value :=
  let thousands :=
    match paramGet params "thousands" (.str ",") with
    | .str s => s
    | v => pyStr v
  let decimal :=
    match paramGet params "decimal" (.str ".") with
    | .str s => s
    | v => pyStr v
  values.map (fun v =>
    match _number_parse v thousands decimal with
    | some me => .float me.1 me.2
    | Option.none => .none)

/-- Round-half-even of the decimal m * 10^e at `scale` places (Python
round on the exact decimal; CPython rounds the binary double, which can
differ in the rare half-way-after-conversion cases). -/
def roundHalfEven (m e scale : Int) : Int × Int :=
  let k := e + scale
  if 0 ≤ k then (m * (10 : Int) ^ k.toNat, -scale)
  else
    let p := (10 : Int) ^ (-k).toNat
    let q := m.fdiv p
    let r := m.fmod p
    let n := if 2 * r < p then q
             else if p < 2 * r then q + 1
             else if q % 2 = 0 then q else q + 1
    (n, -scale)

/-- int(x) for the round step's scale lookup. -/
def pyToIntApprox : Value → Int
  | .int n => n
  | .bool b => if b then 1 else 0
  | .float m e => if 0 ≤ e then m * (10 : Int) ^ e.toNat else m / ((10 : Int) ^ (-e).toNat)
  | .str s => (pyIntParse (pyStrip s)).getD 2
  | _ => 2

/-- transformer.tf_round: scale from an int parameter (bool counts as
int in Python), or a dict's "" entry defaulting to 2; numeric values
(bool included) round to `scale` places as floats, everything else
passes through. -/
def tf_round (values : List Value) (params : Value) : List Value :=
  let scale : Int :=
    match params with
    | .int n => n
    | .bool b => if b then 1 else 0
    | .dict kvs => pyToIntApprox ((dictGet kvs "").getD (.int 2))
    | _ => 2
  values.map (fun v =>
    match v with
    | .int n => let me := roundHalfEven n 0 scale; .float me.1 me.2
    | .float m e => let me := roundHalfEven m e scale; .float me.1 me.2
    | .bool b => let me := roundHalfEven (if b then 1 else 0) 0 scale; .float me.1 me.2
    | v => v)

/-- transformer.tf_date_parse. -/
def tf_date_parse (values : List Value) (params : Value) : List Value :=
  let fmts :=
    match paramGet params "input_formats" (.list []) with
    | .list vs => vs.filterMap (fun v => match v with | .str s => some s | _ => Option.none)
    | _ => []
  values.map (fun v =>
    match _try_parse_date (_to_str v) fmts with
    | some ns => .timestamp ns
    | Option.none => .none)

/-- transformer.tf_date_format. -/
def tf_date_format (values : List Value) (params : Value) : List Value :=
  let pattern : Option String :=
    match params with
    | .str s => some s
    | .dict kvs =>
      (match dictGet kvs "" with
       | some (.str s) => some s
       | some _ => Option.none
       | Option.none =>
         match dictGet kvs "pattern" with
         | some (.str s) => some s
         | _ => Option.none)
    | _ => Option.none
  let pyfmt := _java_dt_to_py
    (match pattern with
     | some s => if s = "" then "%Y-%m-%d" else s
     | Option.none => "%Y-%m-%d")
  values.map (fun v =>
    match v with
    | .timestamp ns => .str (strftime ns pyfmt)
    | .str s =>
      if s ≠ "" then
        match pdToDatetimeFree s with
        | some ns => .str (strftime ns pyfmt)
        | Option.none => .str s
      else .str ""
    | _ => .str "")

/-- transformer.tf_to_value_label. -/
def tf_to_value_label (LT : LookupTables) (values : List Value) (params : Value) : List Value :=
  let value_field := paramGet params "value_field" .none
  let label_field := paramGet params "label_field" .none
  let table_name := paramGet params "value_dict" .none
  let keep_original := pyTruthy (paramGet params "keep_original" (.bool true))
  let dflt := paramGet params "default" (.str "")
  let unique := pyTruthy (paramGet params "unique" (.bool true))
  let table : Option LookupTable :=
    if pyTruthy table_name then
      match table_name with
      | .str n => lookupLT LT n
      | _ => Option.none
    else Option.none
  let res := values.flatMap (fun v =>
    let seq := match v with | .list l => l | v => [v]
    seq.filterMap (fun item =>
      match item with
      | .dict kvs =>
        let raw_val :=
          match value_field with
          | .str f => (dictGet kvs f).getD .none
          | _ => .none
        let mapped :=
          match table with
          | some t => _dict_lookup_value t raw_val
          | Option.none => Option.none
        let final_val :=
          match mapped with
          | some mv => mv
          | Option.none =>
            if keep_original ∧ ¬ isNoneOrEmptyStr raw_val then raw_val else dflt
        let label_val :=
          match label_field with
          | .str f => (dictGet kvs f).getD .none
          | _ => .none
        some (.dict [("value", final_val), ("label", label_val)])
      | item =>
        if ¬ isNoneOrEmptyStr item then some (.dict [("value", item), ("label", .none)])
        else Option.none))
  if unique then dedupValues [] res else res

/-- transformer.tf_json_stringify. -/
def tf_json_stringify (values : List Value) (_params : Value) : List Value :=
  match jsonDumps (.list values) with
  | some s => [.str s]
  | Option.none => [.str (pyStr (.list values))]

/-- transformer.tf_dict_lookup (the "dict" step). -/
def tf_dict_lookup (LT : LookupTables) (values : List Value) (params : Value) : List Value :=
  let cfg : Option (Value × Value × Bool) :=
    match params with
    | .str table_name => some (.str table_name, .str "", true)
    | .dict kvs =>
      some ((dictGet kvs "table").getD .none,
            (dictGet kvs "default").getD (.str ""),
            pyTruthy ((dictGet kvs "keep_original").getD (.bool true)))
    | _ => Option.none
  match cfg with
  | Option.none => values
  | some (table_name, dflt, keep) =>
    if ¬ pyTruthy table_name then values
    else
      let table : LookupTable :=
        match table_name with
        | .str n => (lookupLT LT n).getD []
        | _ => []
      values.map (fun v =>
        match _dict_lookup_value table v with
        | some m => m
        | Option.none => if keep ∧ ¬ isNoneOrEmptyStr v then v else dflt)

-- ---------------------------------------------------------------
-- the registry and chain evaluation
-- ---------------------------------------------------------------

/-- A transform chain step as apply_chain classifies it: a bare string
name, a one-key dict (name with params), or any other value. -/
inductive Step where
  | name (s : String)
  | withParams (s : String) (params : Value)
  | other

abbrev TransformFn := List Value → Value → List Value

/-- transformer.TRANSFORMS: the registry, keyed exactly as in the
source module.  The process-wide LOOKUP_TABLES global consumed by the
dict / to_value_label steps is passed explicitly. -/
def TRANSFORMS (LT : LookupTables) (name : String) : Option TransformFn :=
  if name = "trim" then some tf_trim
  else if name = "json_parse" then some tf_json_parse
  else if name = "form_pick" then some tf_form_pick
  else if name = "form_picker_names" then some tf_form_picker_names
  else if name = "format_each" then some tf_format_each
  else if name = "join_agg" then some tf_join_agg
  else if name = "number_parse" then some tf_number_parse
  else if name = "round" then some tf_round
  else if name = "date_parse" then some tf_date_parse
  else if name = "date_format" then some tf_date_format
  else if name = "to_value_label" then some (tf_to_value_label LT)
  else if name = "json_stringify" then some tf_json_stringify
  else if name = "dict" then some (tf_dict_lookup LT)
  else Option.none

/-- transformer.apply_chain: steps apply left to right; a bare name
gets empty params; an unknown name, like a step that is neither a
string nor a dict, leaves the value list unchanged. -/
def apply_chain (LT : LookupTables) (values : List Value) (chain : List Step) : List Value :=
  chain.foldl (fun out step =>
    match step with
    | .name s =>
      (match TRANSFORMS LT s with
       | some fn => fn out (.dict [])
       | Option.none => out)
    | .withParams s p =>
      (match TRANSFORMS LT s with
       | some fn => fn out p
       | Option.none => out)
    | .other => out) values

-- ---------------------------------------------------------------
-- source tables, worksheet, mapping specification
-- ---------------------------------------------------------------

/-- A source row: column name → string cell (read_excel_all loads every
sheet with dtype=str and fills blanks with ""). -/
abbrev Row := List (String × String)

def rowGet (r : Row) (k : String) (dflt : String) : String :=
  ((r.find? (fun kv => kv.1 == k)).map (fun kv => kv.2)).getD dflt

def rowFind (r : Row) (k : String) : Option String :=
  (r.find? (fun kv => kv.1 == k)).map (fun kv => kv.2)

/-- Python dict assignment on a row (replace in place or append). -/
def rowSet (r : Row) (k : String) (v : String) : Row :=
  if r.any (fun kv => kv.1 == k) then r.map (fun kv => if kv.1 == k then (k, v) else kv)
  else r ++ [(k, v)]

/-- One sheet of the source workbook; all rows share the column set. -/
structure DataFrame where
  columns : List String
  rows : List Row

/-- The df_map registry: sheet name → DataFrame. -/
abbrev DFMap := List (String × DataFrame)

def lookupDF (m : DFMap) (k : String) : Option DataFrame :=
  (m.find? (fun kv => kv.1 == k)).map (fun kv => kv.2)

/-- A source reference inside a column mapping (an entry of "from"). -/
structure SourceRef where
  sheet : String
  column : String

/-- One column mapping of a target sheet spec: target column, source
references, optional filter predicate, transform chain, and the
declared default (absent means mp.get("default", "") yields ""). -/
structure ColumnMapping where
  toColumn : String
  fromRefs : List SourceRef
  whereClause : Option (List (String × Value))
  transform : List Step
  dfault : Option Value

/-- A target sheet spec (name, optional base source table, mappings). -/
structure TargetSheetSpec where
  name : String
  source : Option String
  mappings : List ColumnMapping

/-- The openpyxl worksheet as the engine consumes it: the row-1 header
cells (ws[1]) and ws.max_row.  The writes the engine would perform on
the sheet are returned explicitly as (row, column, value) triples. -/
structure Worksheet where
  header : List Value
  maxRow : Nat

abbrev CellWrite := Nat × Nat × Value

/-- transformer.header_index: trimmed text of each row-1 cell mapped to
its 1-based column index; a duplicate header overwrites (dict
assignment). -/
def header_index (ws : Worksheet) : List (String × Nat) :=
  ws.header.enum.foldl (fun acc jc =>
    let k := pyStrip (_to_str jc.2)
    if acc.any (fun kv => kv.1 == k) then
      acc.map (fun kv => if kv.1 == k then (k, jc.1 + 1) else kv)
    else acc ++ [(k, jc.1 + 1)]) []

def hdrFind (hdr : List (String × Nat)) (k : String) : Option Nat :=
  (hdr.find? (fun kv => kv.1 == k)).map (fun kv => kv.2)

/-- One filter step of the where-loop in get_values_from_source:
`if k in q.columns: q = q[q[k] == str(v)]` (columns are those of the
referenced table; filtering never changes them). -/
def whereStep (cols : List String) (q : List Row) (kv : String × Value) : List Row :=
  if kv.1 ∈ cols then q.filter (fun r => rowGet r kv.1 "" = pyStr kv.2) else q

/-- transformer.get_values_from_source: absent sheet yields []; the
base sheet short-circuits to the base row's own column; otherwise the
rows sharing the base row's join-key value (grouped lookup when a group
index exists for the sheet, else a column filter — a sheet lacking the
join-key column compares "" against the join value), filtered by the
where-predicate, projected on the referenced column. -/
def get_values_from_source (df_map : DFMap) (base_row : Row) (frm : SourceRef)
    (whr : Option (List (String × Value))) (join_key : String)
    (groups : List String) : List Value :=
  match lookupDF df_map frm.sheet with
  | Option.none => []
  | some df =>
    if rowFind base_row "__base_sheet__" = some frm.sheet then
      [Value.str (rowGet base_row frm.column "")]
    else
      let join_val := rowGet base_row join_key ""
      let q :=
        if frm.sheet ∈ groups then
          df.rows.filter (fun r => rowGet r join_key "" = join_val)
        else if join_key ∈ df.columns then
          df.rows.filter (fun r => rowGet r join_key "" = join_val)
        else
          df.rows.filter (fun _ => "" = join_val)
      let q := (whr.getD []).foldl (whereStep df.columns) q
      if frm.column ∈ df.columns then q.map (fun r => Value.str (rowGet r frm.column ""))
      else []

/-- The per-mapping final-value pick, written identically in
process_one_to_one and process_simple_append:
`final = vals[0] if vals else mp.get("default", "")`. -/
def resolveFinal (mp : ColumnMapping) (vals : List Value) : Value :=
  match vals with
  | v :: _ => v
  | [] => mp.dfault.getD (.str "")

/-- `start_row = ws.max_row + 1 if ws.max_row >= 1 else 2`. -/
def startRow (ws : Worksheet) : Nat :=
  if 1 ≤ ws.maxRow then ws.maxRow + 1 else 2

/-- The writes one output row produces at worksheet row i: each row_out
entry whose key appears in the header index lands in that column; the
others are dropped. -/
def rowWrites (hdr : List (String × Nat)) (i : Nat) (row_out : List (String × Value)) :
    List CellWrite :=
  row_out.filterMap (fun kv => (hdrFind hdr kv.1).map (fun c => (i, c, kv.2)))

/-- The write loops of both policies: consecutive worksheet rows from
the given start row, one per output row. -/
def writeRows (hdr : List (String × Nat)) : Nat → List (List (String × Value)) → List CellWrite
  | _, [] => []
  | i, row :: rest => rowWrites hdr i row ++ writeRows hdr (i + 1) rest

/-- The mapping loop body of process_one_to_one for one base row. -/
def oneRowOut (LT : LookupTables) (ts : TargetSheetSpec) (df_map : DFMap) (base : Row)
    (join_key : String) (groups : List String) : List (String × Value) :=
  ts.mappings.foldl (fun acc mp =>
    let vals :=
      if mp.fromRefs.isEmpty then []
      else mp.fromRefs.flatMap (fun f =>
        get_values_from_source df_map base f mp.whereClause join_key groups)
    dictSetV acc mp.toColumn (resolveFinal mp (apply_chain LT vals mp.transform))) []

/-- transformer.process_one_to_one: base table is "details" when the
registry has it, else the declared source; a missing base table is the
uncaught KeyError (df_map[None] / df_map[absent]), modelled as none.
Returns the cell writes and the row count. -/
def process_one_to_one (LT : LookupTables) (ts : TargetSheetSpec) (df_map : DFMap)
    (ws : Worksheet) (join_key : String) (groups : List String) :
    Option (List CellWrite × Nat) :=
  let hdr := header_index ws
  let base_sheet : Option String :=
    if (lookupDF df_map "details").isSome then some "details" else ts.source
  match base_sheet with
  | Option.none => Option.none
  | some bs =>
    match lookupDF df_map bs with
    | Option.none => Option.none
    | some base_df =>
      let out_rows := base_df.rows.map (fun r =>
        oneRowOut LT ts df_map (rowSet r "__base_sheet__" bs) join_key groups)
      some (writeRows hdr (startRow ws) out_rows, out_rows.length)

/-- The mapping loop body of process_simple_append for one source row:
only references to the sheet's own source table contribute (a single
value from the base row); references to any other sheet contribute
nothing. -/
def appendRowOut (LT : LookupTables) (ts : TargetSheetSpec) (src_name : String) (r : Row) :
    List (String × Value) :=
  let base := rowSet r "__base_sheet__" src_name
  ts.mappings.foldl (fun acc mp =>
    let vals :=
      if mp.fromRefs.isEmpty then []
      else mp.fromRefs.flatMap (fun f =>
        if f.sheet = src_name then [Value.str (rowGet base f.column "")] else [])
    dictSetV acc mp.toColumn (resolveFinal mp (apply_chain LT vals mp.transform))) []

/-- transformer.process_simple_append (the one_to_many_append policy):
an undeclared or absent source table contributes zero rows and zero
writes; otherwise one output row per source row, appended from
start_row on.  (The source interleaves resolving and writing with one
running row counter; the two-phase form here assigns the same row
numbers and returns the same count.) -/
def process_simple_append (LT : LookupTables) (ts : TargetSheetSpec) (df_map : DFMap)
    (ws : Worksheet) : List CellWrite × Nat :=
  let hdr := header_index ws
  match ts.source with
  | Option.none => ([], 0)
  | some src_name =>
    if src_name = "" then ([], 0)
    else
      match lookupDF df_map src_name with
      | Option.none => ([], 0)
      | some src =>
        (writeRows hdr (startRow ws) (src.rows.map (appendRowOut LT ts src_name)),
         src.rows.length)

-- ---------------------------------------------------------------
-- helper lemmas
-- ---------------------------------------------------------------

theorem firstSome_cons_some {α : Type} (a : α) (l : List (Option α)) :
    firstSome (some a :: l) = some a := rfl

theorem firstSome_cons_none {α : Type} (l : List (Option α)) :
    firstSome (Option.none :: l) = firstSome l := rfl

theorem firstSome_map_none {α β : Type} (f : α → Option β) :
    ∀ l : List α, (∀ x ∈ l, f x = Option.none) → firstSome (l.map f) = Option.none := by
  intro l
  induction l with
  | nil => intro _; rfl
  | cons x xs ih =>
    intro h
    rw [List.map_cons, h x (List.mem_cons_self x xs), firstSome_cons_none]
    exact ih (fun y hy => h y (List.mem_cons_of_mem x hy))

theorem tableFind_nil (k : Value) : tableFind [] k = Option.none := rfl

theorem pushCand_cons_head (a : Value) (l : List Value) (c : Value) :
    ∃ rest, pushCand (a :: l) c = a :: rest := by
  unfold pushCand
  split
  · exact ⟨l, rfl⟩
  · exact ⟨l ++ [c], rfl⟩

theorem beq_str_int (a : String) (n : Int) : Value.beq (Value.str a) (Value.int n) = false := rfl

theorem beq_str_str (a b : String) : Value.beq (Value.str a) (Value.str b) = (a == b) := rfl

theorem pushCand_nil (c : Value) : pushCand [] c = [c] := rfl

theorem pushCand_one_str_int (a : String) (n : Int) :
    pushCand [Value.str a] (Value.int n) = [Value.str a, Value.int n] := by
  unfold pushCand
  simp [beq_str_int]

theorem pushCand_one_str_str (a b : String) (h : a ≠ b) :
    pushCand [Value.str a] (Value.str b) = [Value.str a, Value.str b] := by
  unfold pushCand
  simp [beq_str_str, h]

theorem pushCand_two_str_int (a b : String) (n : Int) :
    pushCand [Value.str a, Value.str b] (Value.int n) =
      [Value.str a, Value.str b, Value.int n] := by
  unfold pushCand
  simp [beq_str_int]

theorem pyIntParse_empty : pyIntParse "" = Option.none := rfl

theorem ckStrA (s : String) (n : Int) (h1 : pyStrip s = s) (h2 : pyIntParse (pyStrip s) = some n) :
    candidateKeys (Value.str s) = [Value.str s, Value.int n] := by
  have hne : pyStrip s ≠ "" := by
    intro he
    rw [he] at h2
    exact Option.noConfusion h2
  simp only [candidateKeys]
  rw [if_pos hne, h2]
  show pushCand
      (if pyStrip s ≠ s then pushCand (pushCand [] (Value.str s)) (Value.str (pyStrip s))
       else pushCand [] (Value.str s)) (Value.int n) = _
  rw [if_neg (by simp [h1]), pushCand_nil, pushCand_one_str_int]

theorem ckStrB (s : String) (h1 : pyStrip s = s) (h2 : pyIntParse (pyStrip s) = Option.none) :
    candidateKeys (Value.str s) = [Value.str s] := by
  simp only [candidateKeys]
  by_cases hne : pyStrip s = ""
  · rw [if_neg (by simp [hne]), if_neg (by simp [h1]), pushCand_nil]
  · rw [if_pos hne, h2]
    show (if pyStrip s ≠ s then pushCand (pushCand [] (Value.str s)) (Value.str (pyStrip s))
          else pushCand [] (Value.str s)) = _
    rw [if_neg (by simp [h1]), pushCand_nil]

theorem ckStrC (s : String) (n : Int) (h1 : pyStrip s ≠ s)
    (h2 : pyIntParse (pyStrip s) = some n) :
    candidateKeys (Value.str s) = [Value.str s, Value.str (pyStrip s), Value.int n] := by
  have hne : pyStrip s ≠ "" := by
    intro he
    rw [he] at h2
    exact Option.noConfusion h2
  simp only [candidateKeys]
  rw [if_pos hne, h2]
  show pushCand
      (if pyStrip s ≠ s then pushCand (pushCand [] (Value.str s)) (Value.str (pyStrip s))
       else pushCand [] (Value.str s)) (Value.int n) = _
  rw [if_pos h1, pushCand_nil,
    pushCand_one_str_str s (pyStrip s) (fun he => h1 he.symm), pushCand_two_str_int]

theorem ckStrD (s : String) (h1 : pyStrip s ≠ s) (h2 : pyIntParse (pyStrip s) = Option.none) :
    candidateKeys (Value.str s) = [Value.str s, Value.str (pyStrip s)] := by
  simp only [candidateKeys]
  by_cases hne : pyStrip s = ""
  · rw [if_neg (by simp [hne]), if_pos h1, pushCand_nil,
      pushCand_one_str_str s (pyStrip s) (fun he => h1 he.symm)]
  · rw [if_pos hne, h2]
    show (if pyStrip s ≠ s then pushCand (pushCand [] (Value.str s)) (Value.str (pyStrip s))
          else pushCand [] (Value.str s)) = _
    rw [if_pos h1, pushCand_nil,
      pushCand_one_str_str s (pyStrip s) (fun he => h1 he.symm)]

theorem candidateKeys_str_head (s : String) :
    ∃ rest, candidateKeys (Value.str s) = Value.str s :: rest := by
  by_cases h1 : pyStrip s = s
  · cases h2 : pyIntParse (pyStrip s) with
    | none => exact ⟨[], ckStrB s h1 h2⟩
    | some n => exact ⟨[Value.int n], ckStrA s n h1 h2⟩
  · cases h2 : pyIntParse (pyStrip s) with
    | none => exact ⟨[Value.str (pyStrip s)], ckStrD s h1 h2⟩
    | some n => exact ⟨[Value.str (pyStrip s), Value.int n], ckStrC s n h1 h2⟩

theorem dlv_eq (t : LookupTable) (key : Value) (h : t ≠ []) :
    _dict_lookup_value t key =
      firstSome ((candidateKeys key).map (fun c => tableFind t c)) := by
  have hE : t.isEmpty = false := by
    cases t with
    | nil => exact absurd rfl h
    | cons p ps => rfl
  unfold _dict_lookup_value
  rw [hE]
  rfl

-- ---------------------------------------------------------------
-- claims
-- ---------------------------------------------------------------

/-- C1: under either row-production policy, a column mapping resolves
to the first element of the transform-chain output, or to the declared
default (empty string when none is declared) when that output is empty.
resolveFinal is the pick `vals[0] if vals else mp.get("default", "")`
both process_one_to_one and process_simple_append perform; the last two
conjuncts exhibit it inside both policies' row builders. -/
theorem c1_resolved_value (LT : LookupTables) (mp : ColumnMapping) (vals : List Value) :
    (apply_chain LT vals mp.transform = [] →
      resolveFinal mp (apply_chain LT vals mp.transform) = mp.dfault.getD (Value.str "")) ∧
    (∀ v rest, apply_chain LT vals mp.transform = v :: rest →
      resolveFinal mp (apply_chain LT vals mp.transform) = v) ∧
    (∀ (ts : TargetSheetSpec) (df_map : DFMap) (base : Row) (jk : String)
        (groups : List String), ts.mappings = [mp] →
      oneRowOut LT ts df_map base jk groups =
        [(mp.toColumn, resolveFinal mp (apply_chain LT
          (if mp.fromRefs.isEmpty then []
           else mp.fromRefs.flatMap (fun f =>
             get_values_from_source df_map base f mp.whereClause jk groups))
          mp.transform))]) ∧
    (∀ (ts : TargetSheetSpec) (src_name : String) (r : Row), ts.mappings = [mp] →
      appendRowOut LT ts src_name r =
        [(mp.toColumn, resolveFinal mp (apply_chain LT
          (if mp.fromRefs.isEmpty then []
           else mp.fromRefs.flatMap (fun f =>
             if f.sheet = src_name then
               [Value.str (rowGet (rowSet r "__base_sheet__" src_name) f.column "")]
             else []))
          mp.transform))]) := by
  refine ⟨?_, ?_, ?_, ?_⟩
  · intro h
    rw [h]
    rfl
  · intro v rest h
    rw [h]
    rfl
  · intro ts df_map base jk groups hts
    simp [oneRowOut, hts, dictSetV]
  · intro ts src_name r hts
    simp [appendRowOut, hts, dictSetV]

/-- Witness for C1: with an empty chain on an empty candidate list the
declared default "D" is resolved; with a non-empty transformed list its
head is resolved. -/
theorem c1_resolved_value_witness :
    resolveFinal (ColumnMapping.mk "A" [] Option.none [] (some (Value.str "D")))
      (apply_chain [] []
        (ColumnMapping.mk "A" [] Option.none [] (some (Value.str "D"))).transform) =
      Value.str "D" ∧
    resolveFinal (ColumnMapping.mk "A" [] Option.none [] Option.none)
      (apply_chain [] [Value.str "x"]
        (ColumnMapping.mk "A" [] Option.none [] Option.none).transform) =
      Value.str "x" :=
  ⟨(c1_resolved_value [] (ColumnMapping.mk "A" [] Option.none [] (some (Value.str "D"))) []).1
      rfl,
   (c1_resolved_value [] (ColumnMapping.mk "A" [] Option.none [] Option.none)
      [Value.str "x"]).2.1 (Value.str "x") [] rfl⟩

/-- C2 as stated is false on the code: tf_trim does not pass non-string
values through unchanged — the integer 5 comes out as the string "5"
(the step renders every non-None value with _to_str before
stripping). -/
theorem c2_trim_counterexample :
    tf_trim [Value.int 5] (Value.dict []) = [Value.str "5"] ∧
    Value.str "5" ≠ Value.int 5 :=
  ⟨rfl, fun h => Value.noConfusion h⟩

/-- C2 amended: trim strips leading/trailing whitespace from each
string value and maps None to None, but converts every other non-None
value to its str() rendering (and strips that) instead of passing it
through unchanged. -/
theorem c2_trim_amended (p : Value) (s : String) (vs : List Value) :
    tf_trim [Value.str s] p = [Value.str (pyStrip s)] ∧
    tf_trim [Value.none] p = [Value.none] ∧
    tf_trim vs p = vs.map (fun v =>
      match v with
      | Value.none => Value.none
      | v => Value.str (pyStrip (_to_str v))) :=
  ⟨rfl, rfl, rfl⟩

/-- C3: lookup-key matching tries the raw key, then (for strings) the
stripped form, then the int-parsed form, first hit winning; a complete
miss yields None; and under the dict step with table ("1" -> "Active"),
both the integer 1 and the string " 1 " resolve to "Active". -/
theorem c3_dict_lookup (t : LookupTable) (s : String) (v : Value) :
    (tableFind t (Value.str s) = some v →
      _dict_lookup_value t (Value.str s) = some v) ∧
    (tableFind t (Value.str s) = Option.none →
      tableFind t (Value.str (pyStrip s)) = some v →
      _dict_lookup_value t (Value.str s) = some v) ∧
    (∀ n : Int, tableFind t (Value.str s) = Option.none →
      tableFind t (Value.str (pyStrip s)) = Option.none →
      pyIntParse (pyStrip s) = some n →
      tableFind t (Value.int n) = some v →
      _dict_lookup_value t (Value.str s) = some v) ∧
    ((∀ c ∈ candidateKeys (Value.str s), tableFind t c = Option.none) →
      _dict_lookup_value t (Value.str s) = Option.none) ∧
    tf_dict_lookup [("t", [(Value.str "1", Value.str "Active")])]
      [Value.int 1, Value.str " 1 "] (Value.str "t") =
      [Value.str "Active", Value.str "Active"] := by
  refine ⟨?_, ?_, ?_, ?_, rfl⟩
  · intro h
    cases t with
    | nil => exact absurd h (by simp [tableFind])
    | cons p ps =>
      obtain ⟨rest, hck⟩ := candidateKeys_str_head s
      rw [dlv_eq _ _ (by simp), hck, List.map_cons, h, firstSome_cons_some]
  · intro h0 hv
    by_cases h1 : pyStrip s = s
    · rw [h1, h0] at hv
      exact Option.noConfusion hv
    · cases t with
      | nil => exact absurd hv (by simp [tableFind])
      | cons p ps =>
        cases h2 : pyIntParse (pyStrip s) with
        | none =>
          rw [dlv_eq _ _ (by simp), ckStrD s h1 h2, List.map_cons, List.map_cons, h0, hv,
            firstSome_cons_none, firstSome_cons_some]
        | some n =>
          rw [dlv_eq _ _ (by simp), ckStrC s n h1 h2, List.map_cons, List.map_cons, h0, hv,
            firstSome_cons_none, firstSome_cons_some]
  · intro n h0 hstrip hp hv
    cases t with
    | nil => exact absurd hv (by simp [tableFind])
    | cons p ps =>
      by_cases h1 : pyStrip s = s
      · rw [dlv_eq _ _ (by simp), ckStrA s n h1 hp, List.map_cons, List.map_cons, h0, hv,
          firstSome_cons_none, firstSome_cons_some]
      · rw [dlv_eq _ _ (by simp), ckStrC s n h1 hp, List.map_cons, List.map_cons,
          List.map_cons, h0, hstrip, hv, firstSome_cons_none, firstSome_cons_none,
          firstSome_cons_some]
  · intro hall
    cases t with
    | nil => rfl
    | cons p ps =>
      rw [dlv_eq _ _ (by simp)]
      exact firstSome_map_none _ _ hall

/-- Witness for C3: the whitespace string " 1 " misses verbatim and
hits after stripping in the table ("1" -> "Active"). -/
theorem c3_dict_lookup_witness :
    _dict_lookup_value [(Value.str "1", Value.str "Active")] (Value.str " 1 ") =
      some (Value.str "Active") :=
  (c3_dict_lookup [(Value.str "1", Value.str "Active")] " 1 " (Value.str "Active")).2.1 rfl rfl

/-- C4: join_agg always yields a single-element list; dedup keeps
first-seen order ("a, b"), unique=false keeps duplicates ("a, a, b"),
and the empty input yields one empty string. -/
theorem c4_join_agg (vs : List Value) (p : Value) :
    (tf_join_agg vs p).length = 1 ∧
    tf_join_agg [Value.str "a", Value.str "a", Value.str "b"] (Value.dict []) =
      [Value.str "a, b"] ∧
    tf_join_agg [Value.str "a", Value.str "a", Value.str "b"]
      (Value.dict [("unique", Value.bool false)]) = [Value.str "a, a, b"] ∧
    tf_join_agg [] p = [Value.str ""] := by
  refine ⟨rfl, rfl, rfl, ?_⟩
  cases hu : pyTruthy (paramGet p "unique" (Value.bool true)) <;>
    simp [tf_join_agg, hu, dedupStrs]

/-- C5: number_parse strips the value's text, removes every occurrence
of the thousands separator, normalizes the decimal separator to ".",
and parses; failure yields None.  "1,234.50" parses to the decimal
123450 * 10^-2, i.e. the rational 1234.5; "abc" yields None. -/
theorem c5_number_parse (s thousands decimal : String) (vs : List Value) (p : Value) :
    (_number_parse (Value.str s) thousands decimal =
      (if pyStrip s = "" then Option.none
       else pyFloatParse
         (let s1 := if thousands ≠ "" then pyReplace (pyStrip s) thousands "" else pyStrip s
          if decimal ≠ "." then pyReplace s1 decimal "." else s1))) ∧
    (tf_number_parse vs p).length = vs.length ∧
    tf_number_parse [Value.str "1,234.50"] (Value.dict []) = [Value.float 123450 (-2)] ∧
    floatVal 123450 (-2) = 2469 / 2 ∧
    tf_number_parse [Value.str "abc"] (Value.dict []) = [Value.none] := by
  refine ⟨rfl, ?_, rfl, ?_, rfl⟩
  · simp [tf_number_parse]
  · norm_num [floatVal]

/-- C6: a chain step whose name is not registered in TRANSFORMS is a
pass-through — evaluation continues with the remaining steps on the
unchanged value list (likewise a step that is neither a string nor a
dict). -/
theorem c6_unknown_step (LT : LookupTables) (vals : List Value) (nm : String) (p : Value)
    (chain : List Step) (h : TRANSFORMS LT nm = Option.none) :
    apply_chain LT vals (Step.name nm :: chain) = apply_chain LT vals chain ∧
    apply_chain LT vals (Step.withParams nm p :: chain) = apply_chain LT vals chain ∧
    apply_chain LT vals (Step.other :: chain) = apply_chain LT vals chain := by
  refine ⟨?_, ?_, rfl⟩
  · simp only [apply_chain, List.foldl_cons, h]
  · simp only [apply_chain, List.foldl_cons, h]

/-- Witness for C6: the unregistered name "no_such_step" leaves the
value list to the rest of the chain. -/
theorem c6_unknown_step_witness :
    apply_chain [] [Value.str " x "] [Step.name "no_such_step", Step.name "trim"] =
      apply_chain [] [Value.str " x "] [Step.name "trim"] :=
  (c6_unknown_step [] [Value.str " x "] "no_such_step" Value.none [Step.name "trim"] rfl).1

/-- C7: under one_to_many_append, a sheet whose declared source table
is undeclared or absent from the registry produces no writes and zero
rows (the run does not raise; sheets are processed independently, so
others are unaffected). -/
theorem c7_append_missing_source (LT : LookupTables) (ts : TargetSheetSpec) (df_map : DFMap)
    (ws : Worksheet)
    (h : ts.source = Option.none ∨
      ∃ s, ts.source = some s ∧ lookupDF df_map s = Option.none) :
    process_simple_append LT ts df_map ws = ([], 0) := by
  rcases h with h | ⟨s, hs, hl⟩
  · simp [process_simple_append, h]
  · by_cases hse : s = ""
    · simp [process_simple_append, hs, hse]
    · simp [process_simple_append, hs, hse, hl]

/-- Witness for C7: a sheet with no declared source table appends
nothing. -/
theorem c7_append_missing_source_witness :
    process_simple_append [] (TargetSheetSpec.mk "t" Option.none []) []
      (Worksheet.mk [] 1) = ([], 0) :=
  c7_append_missing_source [] (TargetSheetSpec.mk "t" Option.none []) []
    (Worksheet.mk [] 1) (Or.inl rfl)

theorem rowWrites_mem_row (hdr : List (String × Nat)) (i : Nat)
    (row : List (String × Value)) (w : CellWrite) (hw : w ∈ rowWrites hdr i row) :
    w.1 = i ∧ ∃ name, hdrFind hdr name = some w.2.1 := by
  simp only [rowWrites, List.mem_filterMap] at hw
  obtain ⟨kv, _, hkv⟩ := hw
  rcases Option.map_eq_some'.mp hkv with ⟨c, hc, hw'⟩
  rw [← hw']
  exact ⟨rfl, kv.1, hc⟩

theorem writeRows_mem (hdr : List (String × Nat)) :
    ∀ (rows : List (List (String × Value))) (i : Nat) (w : CellWrite),
      w ∈ writeRows hdr i rows →
      (i ≤ w.1 ∧ w.1 < i + rows.length) ∧ ∃ name, hdrFind hdr name = some w.2.1 := by
  intro rows
  induction rows with
  | nil =>
    intro i w hw
    exact absurd hw (by simp [writeRows])
  | cons row rest ih =>
    intro i w hw
    rw [writeRows, List.mem_append] at hw
    rcases hw with hw | hw
    · obtain ⟨hrow, hname⟩ := rowWrites_mem_row hdr i row w hw
      refine ⟨⟨le_of_eq hrow.symm, ?_⟩, hname⟩
      rw [hrow, List.length_cons]
      omega
    · obtain ⟨⟨hlo, hhi⟩, hname⟩ := ih (i + 1) w hw
      refine ⟨⟨by omega, ?_⟩, hname⟩
      rw [List.length_cons]
      omega

/-- C8: sheet writing appends starting at the row after the last
populated one (so never over the header row 1), one worksheet row per
source row, each value landing in the column whose trimmed row-1 header
equals the mapping's target column; a row_out entry with no matching
header is dropped while the row's other entries are still written. -/
theorem c8_append_writes (LT : LookupTables) (ts : TargetSheetSpec) (df_map : DFMap)
    (ws : Worksheet) (s : String) (src : DataFrame)
    (h1 : ts.source = some s) (h2 : s ≠ "") (h3 : lookupDF df_map s = some src) :
    (process_simple_append LT ts df_map ws).2 = src.rows.length ∧
    (∀ w ∈ (process_simple_append LT ts df_map ws).1,
      startRow ws ≤ w.1 ∧ w.1 < startRow ws + src.rows.length) ∧
    (∀ w ∈ (process_simple_append LT ts df_map ws).1, 2 ≤ w.1) ∧
    (∀ w ∈ (process_simple_append LT ts df_map ws).1,
      ∃ name, hdrFind (header_index ws) name = some w.2.1) ∧
    (∀ (i : Nat) (k : String) (v : Value) (rest : List (String × Value)),
      hdrFind (header_index ws) k = Option.none →
      rowWrites (header_index ws) i ((k, v) :: rest) =
        rowWrites (header_index ws) i rest) ∧
    (∀ (i : Nat) (k : String) (v : Value) (rest : List (String × Value)) (c : Nat),
      hdrFind (header_index ws) k = some c →
      rowWrites (header_index ws) i ((k, v) :: rest) =
        (i, c, v) :: rowWrites (header_index ws) i rest) := by
  have hproc : process_simple_append LT ts df_map ws =
      (writeRows (header_index ws) (startRow ws) (src.rows.map (appendRowOut LT ts s)),
       src.rows.length) := by
    simp [process_simple_append, h1, h2, h3]
  have hstart : 2 ≤ startRow ws := by
    unfold startRow
    split <;> omega
  refine ⟨by rw [hproc], ?_, ?_, ?_, ?_, ?_⟩
  · intro w hw
    rw [hproc] at hw
    have := ((writeRows_mem (header_index ws) _ _ w hw).1)
    rw [List.length_map] at this
    exact this
  · intro w hw
    rw [hproc] at hw
    have := ((writeRows_mem (header_index ws) _ _ w hw).1).1
    omega
  · intro w hw
    rw [hproc] at hw
    exact (writeRows_mem (header_index ws) _ _ w hw).2
  · intro i k v rest hk
    simp [rowWrites, List.filterMap_cons, hk]
  · intro i k v rest c hk
    simp [rowWrites, List.filterMap_cons, hk]

/-- Witness for C8: one source row through a one-column template yields
one appended row whose single write sits below the header. -/
theorem c8_append_writes_witness :
    (process_simple_append [] (TargetSheetSpec.mk "t" (some "d")
        [ColumnMapping.mk "A" [] Option.none [] (some (Value.str "x"))])
      [("d", DataFrame.mk ["c"] [[("c", "1")]])] (Worksheet.mk [Value.str "A"] 1)).2 =
      (DataFrame.mk ["c"] [[("c", "1")]]).rows.length ∧
    ∀ w ∈ (process_simple_append [] (TargetSheetSpec.mk "t" (some "d")
        [ColumnMapping.mk "A" [] Option.none [] (some (Value.str "x"))])
      [("d", DataFrame.mk ["c"] [[("c", "1")]])] (Worksheet.mk [Value.str "A"] 1)).1,
      2 ≤ w.1 :=
  ⟨(c8_append_writes [] (TargetSheetSpec.mk "t" (some "d")
        [ColumnMapping.mk "A" [] Option.none [] (some (Value.str "x"))])
      [("d", DataFrame.mk ["c"] [[("c", "1")]])] (Worksheet.mk [Value.str "A"] 1)
      "d" (DataFrame.mk ["c"] [[("c", "1")]]) rfl (by decide) rfl).1,
   (c8_append_writes [] (TargetSheetSpec.mk "t" (some "d")
        [ColumnMapping.mk "A" [] Option.none [] (some (Value.str "x"))])
      [("d", DataFrame.mk ["c"] [[("c", "1")]])] (Worksheet.mk [Value.str "A"] 1)
      "d" (DataFrame.mk ["c"] [[("c", "1")]]) rfl (by decide) rfl).2.2.1⟩

/-- C9: under one_to_one, when the registry has neither "details" nor
the sheet's declared source table (or none is declared), processing
raises (modelled as none) — asymmetric with one_to_many_append, which
skips the same sheet with zero rows. -/
theorem c9_one_to_one_missing_base (LT : LookupTables) (ts : TargetSheetSpec)
    (df_map : DFMap) (ws : Worksheet) (jk : String) (groups : List String)
    (hd : lookupDF df_map "details" = Option.none)
    (hs : ∀ s, ts.source = some s → lookupDF df_map s = Option.none) :
    process_one_to_one LT ts df_map ws jk groups = Option.none ∧
    process_simple_append LT ts df_map ws = ([], 0) := by
  constructor
  · cases hsrc : ts.source with
    | none => simp [process_one_to_one, hd, hsrc]
    | some s => simp [process_one_to_one, hd, hsrc, hs s hsrc]
  · cases hsrc : ts.source with
    | none => simp [process_simple_append, hsrc]
    | some s =>
      by_cases hse : s = ""
      · simp [process_simple_append, hsrc, hse]
      · simp [process_simple_append, hsrc, hse, hs s hsrc]

/-- Witness for C9: an empty registry with no declared source aborts
one_to_one processing while the append policy skips. -/
theorem c9_one_to_one_missing_base_witness :
    process_one_to_one [] (TargetSheetSpec.mk "t" Option.none []) [] (Worksheet.mk [] 1)
      "k" [] = Option.none ∧
    process_simple_append [] (TargetSheetSpec.mk "t" Option.none []) []
      (Worksheet.mk [] 1) = ([], 0) :=
  c9_one_to_one_missing_base [] (TargetSheetSpec.mk "t" Option.none []) []
    (Worksheet.mk [] 1) "k" [] rfl (fun _ h => nomatch h)

/-- C10: a where-filter field that is not a column of the referenced
table is silently ignored — removing it from the predicate leaves the
reference's result unchanged (it does not empty the result); a field
that is a column filters rows by exact string equality. -/
theorem c10_where_unknown_field (df_map : DFMap) (base_row : Row) (frm : SourceRef)
    (jk : String) (groups : List String) (df : DataFrame)
    (w1 w2 : List (String × Value)) (k : String) (v : Value)
    (hdf : lookupDF df_map frm.sheet = some df) (hk : k ∉ df.columns) :
    get_values_from_source df_map base_row frm (some (w1 ++ (k, v) :: w2)) jk groups =
      get_values_from_source df_map base_row frm (some (w1 ++ w2)) jk groups ∧
    (∀ q, whereStep df.columns q (k, v) = q) ∧
    (∀ (q : List Row) (k2 : String) (v2 : Value), k2 ∈ df.columns →
      whereStep df.columns q (k2, v2) = q.filter (fun r => rowGet r k2 "" = pyStr v2)) := by
  have hstep : ∀ q, whereStep df.columns q (k, v) = q := by
    intro q
    unfold whereStep
    exact if_neg hk
  refine ⟨?_, hstep, ?_⟩
  · have hfold : ∀ q : List Row,
        List.foldl (whereStep df.columns) q (w1 ++ (k, v) :: w2) =
          List.foldl (whereStep df.columns) q (w1 ++ w2) := by
      intro q
      rw [List.foldl_append, List.foldl_append, List.foldl_cons, hstep]
    simp only [get_values_from_source, hdf, Option.getD_some]
    by_cases hb : rowFind base_row "__base_sheet__" = some frm.sheet
    · simp [hb]
    · simp only [if_neg hb]
      rw [hfold]
  · intro q k2 v2 hk2
    unfold whereStep
    exact if_pos hk2

/-- Witness for C10: the filter field "nocol" is not a column of the
referenced table and filters out nothing. -/
theorem c10_where_unknown_field_witness :
    get_values_from_source [("p", DataFrame.mk ["j", "c"] [[("j", "1"), ("c", "x")]])]
      [("j", "1"), ("__base_sheet__", "details")] (SourceRef.mk "p" "c")
      (some [("nocol", Value.str "z")]) "j" [] =
    get_values_from_source [("p", DataFrame.mk ["j", "c"] [[("j", "1"), ("c", "x")]])]
      [("j", "1"), ("__base_sheet__", "details")] (SourceRef.mk "p" "c")
      (some []) "j" [] :=
  (c10_where_unknown_field [("p", DataFrame.mk ["j", "c"] [[("j", "1"), ("c", "x")]])]
    [("j", "1"), ("__base_sheet__", "details")] (SourceRef.mk "p" "c") "j" []
    (DataFrame.mk ["j", "c"] [[("j", "1"), ("c", "x")]]) [] [] "nocol" (Value.str "z")
    rfl (by decide)).1
